import Mathlib

/-!
Verification of the scalebox-sdk-python client against its specification.
Definitions shallowly embed the Python source under `src/scalebox/`; claim
theorems follow at the end of the file.
-/

set_option linter.unusedVariables false
set_option linter.unnecessarySeqFocus false
set_option linter.unreachableTactic false
set_option linter.unusedTactic false

namespace ScaleboxSDK

/-! ### Error kinds (src/scalebox/exceptions.py constructors used by the SDK) -/

inductive ErrKind where
  | invalidArgument
  | authentication
  | notFound
  | notEnoughSpace
  | rateLimit
  | timeoutErr
  | sandboxErr
  deriving DecidableEq, Repr

structure SdkException where
  kind : ErrKind
  message : String
  deriving DecidableEq, Repr

/-- Modelled from the spec: `sandbox_timeout_exception` is defined in
`scalebox/exceptions.py`, which is absent from src; the spec's error table maps
502 to the Timeout kind ("502→Timeout(sandbox)"). -/
def sandbox_timeout_exception (message : String) : SdkException :=
  ⟨ErrKind.timeoutErr, message⟩

/-- Embedding of `format_envd_api_exception` (src/scalebox/generated/api.py,
lines 47-61): maps a non-success envd HTTP status code to an SDK exception. -/
def format_envd_api_exception (status_code : Nat) (message : String) : SdkException :=
  if status_code = 400 then ⟨ErrKind.invalidArgument, message⟩
  else if status_code = 401 then ⟨ErrKind.authentication, message⟩
  else if status_code = 404 then ⟨ErrKind.notFound, message⟩
  else if status_code = 429 then
    ⟨ErrKind.sandboxErr, message ++ ": The requests are being rate limited."⟩
  else if status_code = 502 then sandbox_timeout_exception message
  else if status_code = 507 then ⟨ErrKind.notEnoughSpace, message⟩
  else ⟨ErrKind.sandboxErr, toString status_code ++ ": " ++ message⟩

/-! ### Connection config (src/scalebox/connection_config.py)

Timeout values are seconds; the Python floats are embedded as rationals. -/

def REQUEST_TIMEOUT : Rat := 30

/-- Embedding of `ConnectionConfig._get_request_timeout`: `0` disables the
timeout, a non-`None` value is used as-is, `None` falls back to the default. -/
def ConnectionConfig._get_request_timeout
    (default_timeout : Option Rat) (request_timeout : Option Rat) : Option Rat :=
  if request_timeout = some 0 then none
  else match request_timeout with
    | some t => some t
    | none => default_timeout

/-- Embedding of the `request_timeout` resolution in `ConnectionConfig.__init__`
(the final `if request_timeout == 0 / elif ... / else` block). -/
def ConnectionConfig.stored_request_timeout (request_timeout : Option Rat) : Option Rat :=
  if request_timeout = some 0 then none
  else match request_timeout with
    | some t => some t
    | none => some REQUEST_TIMEOUT

/-- Embedding of `ConnectionConfig.get_request_timeout`: applies the same rule
to a per-call override against the stored timeout. -/
def ConnectionConfig.get_request_timeout
    (stored : Option Rat) (request_timeout : Option Rat) : Option Rat :=
  ConnectionConfig._get_request_timeout stored request_timeout

/-! ### Code interpreter data model (src/scalebox/code_interpreter/models.py)

`ExecuteResponse` protobuf frames are a oneof over stdout, stderr, result and
error payloads; `parse_output` dispatches on `HasField` in exactly this order. -/

/-- Fields of a `result` frame that `parse_output` copies into a `Result`.
Proto3 string fields default to the empty string; `execution_count` is modelled
as optional as in the spec's Result record. Wall-clock timestamps are omitted. -/
structure ResultFrame where
  text : String := ""
  html : String := ""
  markdown : String := ""
  svg : String := ""
  png : String := ""
  jpeg : String := ""
  pdf : String := ""
  latex : String := ""
  json : String := ""
  javascript : String := ""
  data : String := ""
  execution_count : Option Nat := none
  is_main_result : Bool := false
  extra : List (String × String) := []
  deriving DecidableEq, Repr

inductive ExecuteFrame where
  | stdout (content : String)
  | stderr (content : String)
  | result (r : ResultFrame)
  | error (name value traceback : String)
  deriving DecidableEq, Repr

/-- Embedding of the `Result` record built by `Result.__init__` from a result
frame. `json_data`/`data` keep the raw JSON text in place of the parsed value
(`json.loads(j) if j else None`); empty proto strings stay as such. -/
structure ResultM where
  text : String
  html : String
  markdown : String
  svg : String
  png : String
  jpeg : String
  pdf : String
  latex : String
  json_data : Option String
  javascript : String
  data : Option String
  execution_count : Option Nat
  is_main_result : Bool
  extra : List (String × String)
  deriving DecidableEq, Repr

/-- Conversion performed inside the `result` branch of `parse_output`. -/
def ResultM.ofFrame (r : ResultFrame) : ResultM where
  text := r.text
  html := r.html
  markdown := r.markdown
  svg := r.svg
  png := r.png
  jpeg := r.jpeg
  pdf := r.pdf
  latex := r.latex
  json_data := if r.json = "" then none else some r.json
  javascript := r.javascript
  data := if r.data = "" then none else some r.data
  execution_count := r.execution_count
  is_main_result := r.is_main_result
  extra := r.extra

structure ExecutionErrorM where
  name : String
  value : String
  traceback : String
  deriving DecidableEq, Repr

structure Logs where
  stdout : List String := []
  stderr : List String := []
  deriving DecidableEq, Repr

structure Execution where
  results : List ResultM := []
  logs : Logs := {}
  error : Option ExecutionErrorM := none
  execution_count : Option Nat := none
  deriving DecidableEq, Repr

/-- Output message handed to `on_stdout` / `on_stderr` handlers (the wall-clock
`timestamp` field is omitted). -/
structure OutputMessageM where
  content : String
  error : Bool
  deriving DecidableEq, Repr

/-- Which of the four optional handlers the caller supplied. -/
structure Handlers where
  on_stdout : Bool := false
  on_stderr : Bool := false
  on_result : Bool := false
  on_error : Bool := false
  deriving DecidableEq, Repr

/-- One observable handler invocation made by `parse_output`. -/
inductive HandlerEvent where
  | stdoutMsg (m : OutputMessageM)
  | stderrMsg (m : OutputMessageM)
  | resultMsg (r : ResultM)
  | errorMsg (e : ExecutionErrorM)
  deriving DecidableEq, Repr

/-- Embedding of `parse_output` (src/scalebox/code_interpreter/models.py,
lines 363-452): folds one frame into the accumulated `Execution`, returning the
updated execution together with the handler invocations it performed. -/
def parse_output (execution : Execution) (output : ExecuteFrame) (hs : Handlers) :
    Execution × List HandlerEvent :=
  match output with
  | .stdout content =>
      let ex := { execution with logs := { execution.logs with stdout := execution.logs.stdout ++ [content] } }
      (ex, if hs.on_stdout then [HandlerEvent.stdoutMsg ⟨content, false⟩] else [])
  | .stderr content =>
      let ex := { execution with logs := { execution.logs with stderr := execution.logs.stderr ++ [content] } }
      (ex, if hs.on_stderr then [HandlerEvent.stderrMsg ⟨content, true⟩] else [])
  | .result r =>
      let res := ResultM.ofFrame r
      let ex := { execution with results := execution.results ++ [res] }
      let ex :=
        if res.is_main_result ∧ res.execution_count.isSome then
          { ex with execution_count := res.execution_count }
        else ex
      (ex, if hs.on_result then [HandlerEvent.resultMsg res] else [])
  | .error name value traceback =>
      let err : ExecutionErrorM := ⟨name, value, traceback⟩
      ({ execution with error := some err },
        if hs.on_error then [HandlerEvent.errorMsg err] else [])

/-- The `for response in response_stream: parse_output(...)` loop of `run_code`:
every frame of the stream is folded into the execution, left to right. -/
def process_stream (execution : Execution) (frames : List ExecuteFrame) (hs : Handlers) :
    Execution × List HandlerEvent :=
  match frames with
  | [] => (execution, [])
  | f :: rest =>
      let step := parse_output execution f hs
      let tail := process_stream step.1 rest hs
      (tail.1, step.2 ++ tail.2)

/-! ### Code interpreter facades
(src/scalebox/code_interpreter/code_interpreter_sync.py and
code_interpreter_async.py) -/

structure Context where
  id : String
  language : String
  cwd : String
  deriving DecidableEq, Repr

/-- Python truthiness of an `Optional[str]`: `None` and `""` are falsy. -/
def truthyStr : Option String → Bool
  | none => false
  | some s => !(s = "")

/-- A raised Python exception: either one of the SDK exception classes or a
bare built-in `Exception`. -/
inductive PyExc where
  | sdk (e : SdkException)
  | generic (msg : String)
  deriving DecidableEq, Repr

def mutualExclusivityMsg : String :=
  "You can provide context or language, but not both at the same time."

/-- Embedding of the sync `Sandbox.run_code` control path that the claims are
about: the `language`/`context` mutual-exclusivity check (`if language and
context:` — Python truthiness), then the frame-demultiplexing loop over the
execute stream, returning the accumulated `Execution`. -/
def run_code_sync (language : Option String) (context : Option Context)
    (frames : List ExecuteFrame) (hs : Handlers) :
    Except PyExc (Execution × List HandlerEvent) :=
  if truthyStr language ∧ context.isSome then
    .error (.sdk ⟨ErrKind.invalidArgument, mutualExclusivityMsg⟩)
  else
    .ok (process_stream {} frames hs)

/-- Embedding of the async `AsyncSandbox.run_code` control path: the guard is
`if context and language:` and raises a bare `Exception`, not an
`InvalidArgumentException`. -/
def run_code_async (language : Option String) (context : Option Context)
    (frames : List ExecuteFrame) (hs : Handlers) :
    Except PyExc (Execution × List HandlerEvent) :=
  if context.isSome ∧ truthyStr language then
    .error (.generic mutualExclusivityMsg)
  else
    .ok (process_stream {} frames hs)

/-! ### Filesystem driver (src/scalebox/sandbox_sync/filesystem/filesystem.py) -/

/-- The `api_pb2.ListDirRequest(path=path, depth=depth)` message handed to the
`list_dir` RPC; the protobuf constructor ignores a `None` keyword, so the depth
is kept optional. -/
structure ListDirRequest where
  path : String
  depth : Option Int
  deriving DecidableEq, Repr

/-- Embedding of the argument-validation prefix of `Filesystem.list`
(lines 270-297): depth `< 1` raises `InvalidArgumentException` locally; in
every other case the `list_dir` RPC is issued with the given path and depth.
The successful value is the RPC request that gets sent, so an `.error` result
is a raise that happens before any network call. The Python default for
`depth` is `1`. -/
def Filesystem.list (path : String) (depth : Option Int := some 1) :
    Except SdkException ListDirRequest :=
  match depth with
  | some d =>
      if d < 1 then .error ⟨ErrKind.invalidArgument, "depth should be at least 1"⟩
      else .ok ⟨path, some d⟩
  | none => .ok ⟨path, none⟩

/-! ### Sandbox kill and the handle's config
(src/scalebox/sandbox_sync/sandbox_api.py and src/scalebox/sandbox_sync/main.py) -/

/-- Modelled from the spec: `handle_api_exception` (module `scalebox.api`,
absent from src) builds the exception raised for a non-success management-API
response ("any other ≥300 → raises"). -/
def handle_api_exception (status_code : Nat) : SdkException :=
  ⟨ErrKind.sandboxErr, "api error: " ++ toString status_code⟩

/-- Embedding of `SandboxApi._cls_kill` (lines 168-206), the static form of
`kill`, as a function of the config's debug flag and the HTTP status of the
DELETE `/sandboxes/{id}` response: debug short-circuits to `True`; 404 returns
`False`; any other status `>= 300` raises; otherwise `True`. -/
def SandboxApi._cls_kill (debug : Bool) (status_code : Nat) : Except SdkException Bool :=
  if debug then .ok true
  else if status_code = 404 then .ok false
  else if 300 ≤ status_code then .error (handle_api_exception status_code)
  else .ok true

/-- Keys of a `ConnectionConfig` instance's `__dict__`: exactly the attributes
assigned in `ConnectionConfig.__init__`. -/
inductive CfgKey where
  | domain
  | debug
  | api_key
  | access_token
  | debug_host
  | headers
  | proxy
  | request_timeout
  | api_url
  deriving DecidableEq, Repr

/-- The keyword parameters accepted by `SandboxApi._cls_kill` (besides
`sandbox_id`); it declares no `**kwargs`. -/
def clsKillParams : List CfgKey :=
  [CfgKey.api_key, CfgKey.domain, CfgKey.debug, CfgKey.request_timeout,
   CfgKey.headers, CfgKey.proxy]

/-- A `ConnectionConfig` object's `__dict__`, modelled as its key set (values
are irrelevant to the claims below). -/
structure PyConfig where
  present : List CfgKey
  deriving DecidableEq, Repr

/-- A freshly constructed `ConnectionConfig`: `__init__` assigns all nine
attributes. -/
def freshConfig : PyConfig :=
  ⟨[CfgKey.domain, CfgKey.debug, CfgKey.api_key, CfgKey.access_token,
    CfgKey.debug_host, CfgKey.headers, CfgKey.proxy, CfgKey.request_timeout,
    CfgKey.api_url]⟩

inductive PyError where
  | typeError (unexpected_kwarg : CfgKey)
  | sdk (e : SdkException)
  deriving DecidableEq, Repr

/-- Embedding of the instance-method body of `Sandbox.kill`
(src/scalebox/sandbox_sync/main.py, lines 569-586). `config_dict` aliases
`self.connection_config.__dict__`, so the two `pop` calls mutate the handle's
config; the call `SandboxApi._cls_kill(sandbox_id=..., **config_dict)` then
raises `TypeError` as soon as some remaining key is not a parameter of
`_cls_kill`, and even on a successful call the body returns `None` (the
`_cls_kill` result is discarded). The returned pair is (config after the call,
outcome), where the successful outcome `none` is Python's `None`. -/
def Sandbox.instance_kill (cfg : PyConfig) (debug : Bool) (status_code : Nat) :
    PyConfig × Except PyError (Option Bool) :=
  let cfg1 : PyConfig :=
    ⟨(cfg.present.filter (fun k => !(k = CfgKey.access_token))).filter
      (fun k => !(k = CfgKey.api_url))⟩
  match cfg1.present.find? (fun k => !(clsKillParams.contains k)) with
  | some bad => (cfg1, .error (PyError.typeError bad))
  | none =>
      match SandboxApi._cls_kill debug status_code with
      | .error e => (cfg1, .error (PyError.sdk e))
      | .ok _ => (cfg1, .ok none)

/-! ### Sandbox handle envd URL
(src/scalebox/sandbox_sync/main.py `__init__` and src/scalebox/sandbox/main.py
`SandboxSetup.get_host`) -/

/-- The resolved connection-config fields relevant to endpoint construction. -/
structure ConnectionConfigM where
  domain : String
  debug : Bool
  debug_host : String
  deriving DecidableEq, Repr

def SandboxSetup.envd_port : Nat := 443

/-- Embedding of `SandboxSetup.get_host`: in debug mode the literal host
`localhost:{port}` (the configured debug host is not consulted), otherwise the
sandbox domain with no port. -/
def SandboxSetup.get_host (cfg : ConnectionConfigM) (sandbox_domain : String)
    (port : Nat) : String :=
  if cfg.debug then "localhost:" ++ toString port
  else sandbox_domain

/-- `self._sandbox_domain = opts["sandbox_domain"] or self.connection_config.domain`
(Python `or`: `None` and the empty string both fall back). -/
def resolve_sandbox_domain (opts_domain : Option String) (cfg : ConnectionConfigM) : String :=
  match opts_domain with
  | none => cfg.domain
  | some s => if s = "" then cfg.domain else s

/-- Embedding of the `_envd_api_url` assignment in `Sandbox.__init__`
(src/scalebox/sandbox_sync/main.py, lines 226-258, with
`debug = self._connection_config.debug`). -/
def Sandbox.envd_api_url (cfg : ConnectionConfigM) (opts_domain : Option String) : String :=
  let dom := resolve_sandbox_domain opts_domain cfg
  if cfg.debug then "http://" ++ SandboxSetup.get_host cfg dom 8888
  else "https://" ++ SandboxSetup.get_host cfg dom SandboxSetup.envd_port

/-! ### Commands (src/scalebox/sandbox_sync/commands/command.py) -/

/-- The `api_pb2.ProcessConfig` composed by `Commands._start`. -/
structure ProcessConfig where
  cmd : String
  args : List String
  envs : List (String × String)
  cwd : Option String
  deriving DecidableEq, Repr

/-- One frame of the `start` RPC response stream, at the granularity `_start`
inspects it: whether the frame `HasField("event")`, and the pid carried at
`event.start.pid` (proto default 0 when the start payload is absent). -/
structure StartFrame where
  has_event : Bool
  pid : Nat
  deriving DecidableEq, Repr

structure CommandHandleM where
  pid : Nat
  config : ProcessConfig
  deriving DecidableEq, Repr

/-- Embedding of `Commands._start` (lines 223-261): composes
`/bin/bash -l -c <cmd>`, reads the first stream frame as the start handshake
(`SandboxException` if the stream is empty or the frame lacks the `event`
field) and returns the handle holding the pid. -/
def Commands._start (cmd : String) (envs : List (String × String))
    (cwd : Option String) (frames : List StartFrame) :
    Except SdkException CommandHandleM :=
  let config : ProcessConfig := ⟨"/bin/bash", ["-l", "-c", cmd], envs, cwd⟩
  match frames with
  | [] => .error ⟨ErrKind.sandboxErr, "no start event"⟩
  | f :: _ =>
      if f.has_event then .ok ⟨f.pid, config⟩
      else .error ⟨ErrKind.sandboxErr, "Failed to start process: expected start event"⟩

/-- Embedding of the start path of `Commands.run` (lines 191-221): with truthy
`background` the command has `" &"` appended before `_start`; otherwise it is
passed unchanged (`run` then additionally waits on the handle, which does not
affect the launched process or its pid). -/
def Commands.run_start (cmd : String) (background : Option Bool)
    (envs : List (String × String)) (cwd : Option String)
    (frames : List StartFrame) : Except SdkException CommandHandleM :=
  let cmd1 := if background.getD false then cmd ++ " &" else cmd
  Commands._start cmd1 envs cwd frames

/-! ### Stream observation helpers and lemmas -/

/-- The `ExecutionError` carried by an `error` frame, if any. -/
def frameError : ExecuteFrame → Option ExecutionErrorM
  | .error n v t => some ⟨n, v, t⟩
  | _ => none

/-- The content of a `stdout` frame, if any. -/
def frameStdout : ExecuteFrame → Option String
  | .stdout c => some c
  | _ => none

/-- The `Result` contributed by a `result` frame, if any. -/
def frameResult : ExecuteFrame → Option ResultM
  | .result r => some (ResultM.ofFrame r)
  | _ => none

/-- The error delivered by an `on_error` handler invocation, if any. -/
def eventError : HandlerEvent → Option ExecutionErrorM
  | .errorMsg e => some e
  | _ => none

/-- The last `error` frame of a stream, converted. -/
def lastErrorFrame : List ExecuteFrame → Option ExecutionErrorM
  | [] => none
  | f :: rest =>
      match lastErrorFrame rest with
      | some e => some e
      | none => frameError f

/-- Number of `result` frames flagged as the main result. -/
def countMainFrames (frames : List ExecuteFrame) : Nat :=
  (frames.filter (fun f =>
    match f with
    | .result r => r.is_main_result
    | _ => false)).length

theorem parse_output_error_eq (ex : Execution) (f : ExecuteFrame) (hs : Handlers) :
    (parse_output ex f hs).1.error =
      match frameError f with
      | some e => some e
      | none => ex.error := by
  cases f <;> simp only [parse_output, frameError] <;> split <;> rfl

theorem parse_output_stdout_eq (ex : Execution) (f : ExecuteFrame) (hs : Handlers) :
    (parse_output ex f hs).1.logs.stdout = ex.logs.stdout ++ (frameStdout f).toList := by
  cases f with
  | stdout c => rfl
  | stderr c => simp [parse_output, frameStdout]
  | result r =>
      simp only [parse_output, frameStdout, Option.toList]
      split <;> simp
  | error n v t => simp [parse_output, frameStdout]

theorem parse_output_results_eq (ex : Execution) (f : ExecuteFrame) (hs : Handlers) :
    (parse_output ex f hs).1.results = ex.results ++ (frameResult f).toList := by
  cases f with
  | stdout c => simp [parse_output, frameResult]
  | stderr c => simp [parse_output, frameResult]
  | result r =>
      simp only [parse_output, frameResult, Option.toList]
      split <;> rfl
  | error n v t => simp [parse_output, frameResult]

theorem parse_output_events_error_eq (ex : Execution) (f : ExecuteFrame) (hs : Handlers)
    (h : hs.on_error = true) :
    (parse_output ex f hs).2.filterMap eventError = (frameError f).toList := by
  cases f <;> simp [parse_output, frameError, eventError, h] <;> split <;> simp [eventError]

theorem process_stream_error_eq (frames : List ExecuteFrame) (ex : Execution) (hs : Handlers) :
    (process_stream ex frames hs).1.error =
      match lastErrorFrame frames with
      | some e => some e
      | none => ex.error := by
  induction frames generalizing ex with
  | nil => rfl
  | cons f rest ih =>
      simp only [process_stream, lastErrorFrame]
      rw [ih]
      rcases hl : lastErrorFrame rest with _ | e
      · simp only [parse_output_error_eq]
      · rfl

theorem process_stream_stdout_eq (frames : List ExecuteFrame) (ex : Execution) (hs : Handlers) :
    (process_stream ex frames hs).1.logs.stdout =
      ex.logs.stdout ++ frames.filterMap frameStdout := by
  induction frames generalizing ex with
  | nil => simp [process_stream]
  | cons f rest ih =>
      simp only [process_stream]
      rw [ih, parse_output_stdout_eq]
      cases f <;> simp [frameStdout, Option.toList]

theorem process_stream_results_eq (frames : List ExecuteFrame) (ex : Execution) (hs : Handlers) :
    (process_stream ex frames hs).1.results =
      ex.results ++ frames.filterMap frameResult := by
  induction frames generalizing ex with
  | nil => simp [process_stream]
  | cons f rest ih =>
      simp only [process_stream]
      rw [ih, parse_output_results_eq]
      cases f <;> simp [frameResult, Option.toList]

theorem process_stream_events_error_eq (frames : List ExecuteFrame) (ex : Execution)
    (hs : Handlers) (h : hs.on_error = true) :
    (process_stream ex frames hs).2.filterMap eventError =
      frames.filterMap frameError := by
  induction frames generalizing ex with
  | nil => simp [process_stream]
  | cons f rest ih =>
      simp only [process_stream, List.filterMap_append]
      rw [ih, parse_output_events_error_eq _ _ _ h]
      cases f <;> simp [frameError, Option.toList]

theorem process_stream_main_count (frames : List ExecuteFrame) (ex : Execution) (hs : Handlers) :
    ((process_stream ex frames hs).1.results.filter (fun r => r.is_main_result)).length =
      (ex.results.filter (fun r => r.is_main_result)).length + countMainFrames frames := by
  rw [process_stream_results_eq, List.filter_append, List.length_append]
  congr 1
  induction frames with
  | nil => rfl
  | cons f rest ih =>
      cases f with
      | result r =>
          rcases hr : r.is_main_result with _ | _ <;>
            simp [countMainFrames, frameResult, ResultM.ofFrame, hr, List.filter] at ih ⊢ <;>
            omega
      | stdout c => simpa [countMainFrames, frameResult, List.filter] using ih
      | stderr c => simpa [countMainFrames, frameResult, List.filter] using ih
      | error n v t => simpa [countMainFrames, frameResult, List.filter] using ih

/-- Extract the pid of a successfully started command. -/
def handlePid (x : Except SdkException CommandHandleM) : Option Nat :=
  match x with
  | .ok h => some h.pid
  | .error _ => none

/-! ### Claim theorems -/

/-- C1 (counterexample): the claim says status 429 yields the RateLimit error
kind, but `format_envd_api_exception` builds a `SandboxException` for 429 (it
only appends a rate-limiting note to the message), so the kind is Sandbox, not
RateLimit. -/
theorem C1_rate_limit_counterexample :
    (format_envd_api_exception 429 "too many requests").kind = ErrKind.sandboxErr ∧
    (format_envd_api_exception 429 "too many requests").kind ≠ ErrKind.rateLimit := by
  constructor
  · rfl
  · decide

/-- C1 (amended): for every non-success envd status, the error formatter maps
400 to InvalidArgument, 401 to Authentication, 404 to NotFound, 502 to Timeout
(sandbox timeout), 507 to NotEnoughSpace, and 429 as well as every other status
at least 300 to Sandbox; for 429 the message carries the rate-limiting note. -/
theorem C1_envd_error_mapping (status : Nat) (msg : String)
    (h300 : 300 ≤ status) (h400 : status ≠ 400) (h401 : status ≠ 401)
    (h404 : status ≠ 404) (h429 : status ≠ 429) (h502 : status ≠ 502)
    (h507 : status ≠ 507) :
    (format_envd_api_exception status msg).kind = ErrKind.sandboxErr ∧
    (format_envd_api_exception 400 msg).kind = ErrKind.invalidArgument ∧
    (format_envd_api_exception 401 msg).kind = ErrKind.authentication ∧
    (format_envd_api_exception 404 msg).kind = ErrKind.notFound ∧
    (format_envd_api_exception 429 msg).kind = ErrKind.sandboxErr ∧
    (format_envd_api_exception 429 msg).message =
      msg ++ ": The requests are being rate limited." ∧
    (format_envd_api_exception 502 msg).kind = ErrKind.timeoutErr ∧
    (format_envd_api_exception 507 msg).kind = ErrKind.notEnoughSpace := by
  refine ⟨?_, rfl, rfl, rfl, rfl, rfl, rfl, rfl⟩
  simp only [format_envd_api_exception, if_neg h400, if_neg h401, if_neg h404,
    if_neg h429, if_neg h502, if_neg h507]

/-- Witness for C1_envd_error_mapping at status 503. -/
theorem C1_envd_error_mapping_witness :
    300 ≤ 503 ∧ (format_envd_api_exception 503 "m").kind = ErrKind.sandboxErr :=
  ⟨by decide,
   (C1_envd_error_mapping 503 "m" (by decide) (by decide) (by decide) (by decide)
      (by decide) (by decide) (by decide)).1⟩

/-- C2 (code_bug): with both a language and a context supplied, the sync facade
raises InvalidArgument as the claim says, but the async facade raises a bare
Python `Exception` with the same message — not an InvalidArgument SDK error. -/
theorem C2_async_mutual_exclusivity_bug :
    run_code_sync (some "python") (some ⟨"ctx1", "python", "/home/user"⟩) [] {} =
      Except.error (PyExc.sdk ⟨ErrKind.invalidArgument, mutualExclusivityMsg⟩) ∧
    run_code_async (some "python") (some ⟨"ctx1", "python", "/home/user"⟩) [] {} =
      Except.error (PyExc.generic mutualExclusivityMsg) ∧
    run_code_async (some "python") (some ⟨"ctx1", "python", "/home/user"⟩) [] {} ≠
      Except.error (PyExc.sdk ⟨ErrKind.invalidArgument, mutualExclusivityMsg⟩) := by
  refine ⟨rfl, rfl, ?_⟩
  intro h
  have h2 : Except.error (α := Execution × List HandlerEvent)
        (PyExc.generic mutualExclusivityMsg) =
      Except.error (PyExc.sdk ⟨ErrKind.invalidArgument, mutualExclusivityMsg⟩) := h
  injection h2 with h3
  exact PyExc.noConfusion h3

/-- C3 (confirmed): `Filesystem.list` with depth `d < 1` raises
InvalidArgument locally — the `.error` branch is taken before the `list_dir`
RPC request is ever built — while `d >= 1` (and an omitted depth, whose Python
default is 1) issues the `list_dir` RPC with the given path and depth. -/
theorem C3_list_depth_validation (path : String) (d : Int) :
    (d < 1 → Filesystem.list path (some d) =
      Except.error ⟨ErrKind.invalidArgument, "depth should be at least 1"⟩) ∧
    (1 ≤ d → Filesystem.list path (some d) = Except.ok ⟨path, some d⟩) ∧
    Filesystem.list path none = Except.ok ⟨path, none⟩ := by
  refine ⟨fun h => ?_, fun h => ?_, rfl⟩
  · simp [Filesystem.list, h]
  · simp [Filesystem.list, show ¬(d < 1) by omega]

/-- Witness for C3_list_depth_validation at depth 0 and depth 2. -/
theorem C3_list_depth_validation_witness :
    ((0 : Int) < 1 ∧ Filesystem.list "/tmp" (some 0) =
      Except.error ⟨ErrKind.invalidArgument, "depth should be at least 1"⟩) ∧
    ((1 : Int) ≤ 2 ∧ Filesystem.list "/tmp" (some 2) = Except.ok ⟨"/tmp", some 2⟩) :=
  ⟨⟨by decide, (C3_list_depth_validation "/tmp" 0).1 (by decide)⟩,
   ⟨by decide, (C3_list_depth_validation "/tmp" 2).2.1 (by decide)⟩⟩

/-- C4 (code_bug): the static `_cls_kill` behaves exactly as the claim says
(404 gives `false`, success gives `true`, other statuses at least 300 raise),
but the instance-method form of `kill` is broken: its kwargs dict still holds
the config's `debug_host` key, which `_cls_kill` does not accept, so every
instance-level `kill()` raises `TypeError` — it returns neither `true` on a
successful DELETE nor `false` on a 404 (and even absent the TypeError the body
discards the `_cls_kill` result and returns `None`). -/
theorem C4_instance_kill_bug :
    SandboxApi._cls_kill false 404 = Except.ok false ∧
    SandboxApi._cls_kill false 204 = Except.ok true ∧
    SandboxApi._cls_kill false 500 = Except.error (handle_api_exception 500) ∧
    (Sandbox.instance_kill freshConfig false 204).2 =
      Except.error (PyError.typeError CfgKey.debug_host) ∧
    (Sandbox.instance_kill freshConfig false 404).2 =
      Except.error (PyError.typeError CfgKey.debug_host) := by
  exact ⟨rfl, rfl, rfl, rfl, rfl⟩

/-- C5 (confirmed): request-timeout resolution obeys the zero-means-none rule:
an argument of 0 resolves to no timeout, a positive value to itself, an absent
value to the default (the stored config timeout defaults to `REQUEST_TIMEOUT`),
and `get_request_timeout` applies the same rule to a per-call override against
the stored timeout. -/
theorem C5_request_timeout_rule (d u : Option Rat) (t : Rat) (ht : 0 < t) :
    ConnectionConfig._get_request_timeout d (some 0) = none ∧
    ConnectionConfig._get_request_timeout d (some t) = some t ∧
    ConnectionConfig._get_request_timeout d none = d ∧
    ConnectionConfig.stored_request_timeout (some 0) = none ∧
    ConnectionConfig.stored_request_timeout (some t) = some t ∧
    ConnectionConfig.stored_request_timeout none = some REQUEST_TIMEOUT ∧
    ConnectionConfig.get_request_timeout u (some 0) = none ∧
    ConnectionConfig.get_request_timeout u (some t) = some t ∧
    ConnectionConfig.get_request_timeout u none = u := by
  have ht0 : ¬(some t = some (0 : Rat)) := by
    simp only [Option.some.injEq]
    exact ne_of_gt ht
  refine ⟨rfl, ?_, rfl, rfl, ?_, rfl, rfl, ?_, rfl⟩ <;>
    simp [ConnectionConfig._get_request_timeout, ConnectionConfig.stored_request_timeout,
      ConnectionConfig.get_request_timeout, ht0]

/-- Witness for C5_request_timeout_rule at t = 5. -/
theorem C5_request_timeout_rule_witness :
    (0 : Rat) < 5 ∧
    ConnectionConfig._get_request_timeout (some 7) (some 5) = some 5 :=
  ⟨by norm_num, (C5_request_timeout_rule (some 7) (some 9) 5 (by norm_num)).2.1⟩

/-- C6 (confirmed): an `error` frame never makes `run_code` raise — the stream
loop returns `.ok`; the last error frame is converted and stored as
`execution.error`, each error frame triggers an `on_error` invocation (in
order), and processing continues to the end of the stream: all stdout frames,
including those after an error frame, land in the logs. -/
theorem C6_error_frames_recorded (language : Option String) (context : Option Context)
    (frames : List ExecuteFrame) (hs : Handlers)
    (hargs : ¬(truthyStr language ∧ context.isSome)) (herr : hs.on_error = true) :
    ∃ out, run_code_sync language context frames hs = Except.ok out ∧
      out.1.error = lastErrorFrame frames ∧
      out.1.logs.stdout = frames.filterMap frameStdout ∧
      out.2.filterMap eventError = frames.filterMap frameError := by
  refine ⟨process_stream {} frames hs, ?_, ?_, ?_, ?_⟩
  · unfold run_code_sync
    rw [if_neg hargs]
  · rw [process_stream_error_eq]
    cases lastErrorFrame frames <;> rfl
  · rw [process_stream_stdout_eq]
    rfl
  · exact process_stream_events_error_eq frames {} hs herr

/-- Frames for the C6 witness: stdout, then an error frame, then more stdout. -/
def c6Frames : List ExecuteFrame :=
  [ExecuteFrame.stdout "a", ExecuteFrame.error "ValueError" "x" "tb",
   ExecuteFrame.stdout "b"]

/-- Witness for C6_error_frames_recorded on a concrete stream holding an error
frame. -/
theorem C6_error_frames_recorded_witness :
    ¬(truthyStr none ∧ (none : Option Context).isSome) ∧
    ∃ out, run_code_sync none none c6Frames { on_error := true } = Except.ok out ∧
      out.1.error = lastErrorFrame c6Frames ∧
      out.1.logs.stdout = c6Frames.filterMap frameStdout ∧
      out.2.filterMap eventError = c6Frames.filterMap frameError :=
  ⟨by decide,
   C6_error_frames_recorded none none c6Frames { on_error := true } (by decide) rfl⟩

/-- Result frame flagged as the main result, used for the C7 stream inputs. -/
def c7MainFrame : ResultFrame :=
  { text := "42", is_main_result := true, execution_count := some 1 }

/-- C7 (counterexample): the demultiplexer does not enforce uniqueness of the
main result — feeding two result frames that both carry `isMainResult = true`
through `parse_output` yields an Execution with two main results. -/
theorem C7_two_main_results_counterexample :
    ((process_stream {} [ExecuteFrame.result c7MainFrame, ExecuteFrame.result c7MainFrame]
        {}).1.results.filter (fun r => r.is_main_result)).length = 2 ∧
    ¬(((process_stream {} [ExecuteFrame.result c7MainFrame, ExecuteFrame.result c7MainFrame]
        {}).1.results.filter (fun r => r.is_main_result)).length ≤ 1) := by
  constructor
  · rfl
  · decide

/-- C7 (amended): `parse_output` appends exactly one Result per result frame,
preserving its `isMainResult` flag; hence an Execution has at most one main
result whenever the demultiplexed stream carried at most one main-result
frame. -/
theorem C7_at_most_one_main_result (frames : List ExecuteFrame) (hs : Handlers)
    (h : countMainFrames frames ≤ 1) :
    ((process_stream {} frames hs).1.results.filter
      (fun r => r.is_main_result)).length ≤ 1 := by
  rw [process_stream_main_count]
  simpa using h

/-- Witness for C7_at_most_one_main_result on a stream with one main-result
frame. -/
theorem C7_at_most_one_main_result_witness :
    countMainFrames [ExecuteFrame.result c7MainFrame, ExecuteFrame.stdout "hi"] ≤ 1 ∧
    ((process_stream {} [ExecuteFrame.result c7MainFrame, ExecuteFrame.stdout "hi"]
        {}).1.results.filter (fun r => r.is_main_result)).length ≤ 1 :=
  ⟨by decide, C7_at_most_one_main_result _ {} (by decide)⟩

/-- C8 (counterexample): with `debug = true` and a configured debug host
`10.0.0.1`, the handle's envd URL is the hard-coded `http://localhost:8888`,
not `http://10.0.0.1:8888`; with `debug = false` the URL is
`https://{sandboxDomain}` with no explicit `:443` suffix. -/
theorem C8_envd_url_counterexample :
    Sandbox.envd_api_url ⟨"api.scalebox.dev/v1", true, "10.0.0.1"⟩
      (some "sbx.example.com") = "http://localhost:8888" ∧
    "http://localhost:8888" ≠ "http://10.0.0.1:8888" ∧
    Sandbox.envd_api_url ⟨"api.scalebox.dev/v1", false, "localhost"⟩
      (some "sbx.example.com") = "https://sbx.example.com" ∧
    "https://sbx.example.com" ≠ "https://sbx.example.com:443" := by
  exact ⟨rfl, by decide, rfl, by decide⟩

/-- C8 (amended): the handle's envd API URL is exactly `http://localhost:8888`
when the connection config has `debug = true` (the configured debug host is
ignored), and exactly `https://` followed by the resolved sandbox domain — no
explicit port, so HTTPS default 443 — when `debug = false`. -/
theorem C8_envd_url_amended (cfg : ConnectionConfigM) (opts_domain : Option String) :
    (cfg.debug = true → Sandbox.envd_api_url cfg opts_domain = "http://localhost:8888") ∧
    (cfg.debug = false → Sandbox.envd_api_url cfg opts_domain =
      "https://" ++ resolve_sandbox_domain opts_domain cfg) := by
  constructor <;> intro h <;>
    simp only [Sandbox.envd_api_url, SandboxSetup.get_host, h, if_true, if_false,
      Bool.false_eq_true, ite_false, ite_true] <;> rfl

/-- Witness for C8_envd_url_amended in both modes. -/
theorem C8_envd_url_amended_witness :
    ((⟨"d", true, "h"⟩ : ConnectionConfigM).debug = true ∧
      Sandbox.envd_api_url ⟨"d", true, "h"⟩ none = "http://localhost:8888") ∧
    ((⟨"d", false, "h"⟩ : ConnectionConfigM).debug = false ∧
      Sandbox.envd_api_url ⟨"d", false, "h"⟩ none =
        "https://" ++ resolve_sandbox_domain none ⟨"d", false, "h"⟩) :=
  ⟨⟨rfl, (C8_envd_url_amended ⟨"d", true, "h"⟩ none).1 rfl⟩,
   ⟨rfl, (C8_envd_url_amended ⟨"d", false, "h"⟩ none).2 rfl⟩⟩

/-- C9 (code_bug): the instance-method `kill` body aliases the live
`connection_config.__dict__` and pops `access_token` and `api_url` off it, so
invoking `kill()` on a handle strips those attributes from the handle's config
object — the config is not left unchanged. -/
theorem C9_config_mutation_bug :
    freshConfig.present.contains CfgKey.access_token = true ∧
    freshConfig.present.contains CfgKey.api_url = true ∧
    (Sandbox.instance_kill freshConfig false 204).1.present.contains
      CfgKey.access_token = false ∧
    (Sandbox.instance_kill freshConfig false 204).1.present.contains
      CfgKey.api_url = false ∧
    (Sandbox.instance_kill freshConfig false 204).1 ≠ freshConfig := by
  refine ⟨rfl, rfl, rfl, rfl, ?_⟩
  decide

/-- C10 (confirmed): with truthy `background`, the command string handed to the
start RPC is the original command with `" &"` appended — so the launched
process is `/bin/bash -l -c <cmd &>` — while with `background` absent or false
it is the command unchanged; the shell composition is otherwise identical and
the returned handle's pid (taken from the first stream frame) is the same in
both modes. -/
theorem C10_background_appends_ampersand (cmd : String)
    (envs : List (String × String)) (cwd : Option String)
    (frames : List StartFrame) :
    Commands.run_start cmd (some true) envs cwd frames =
      Commands._start (cmd ++ " &") envs cwd frames ∧
    Commands.run_start cmd none envs cwd frames =
      Commands._start cmd envs cwd frames ∧
    Commands.run_start cmd (some false) envs cwd frames =
      Commands._start cmd envs cwd frames ∧
    (∀ h, Commands._start (cmd ++ " &") envs cwd frames = Except.ok h →
      h.config = ⟨"/bin/bash", ["-l", "-c", cmd ++ " &"], envs, cwd⟩) ∧
    (∀ h, Commands._start cmd envs cwd frames = Except.ok h →
      h.config = ⟨"/bin/bash", ["-l", "-c", cmd], envs, cwd⟩) ∧
    handlePid (Commands.run_start cmd (some true) envs cwd frames) =
      handlePid (Commands.run_start cmd none envs cwd frames) := by
  refine ⟨rfl, rfl, rfl, ?_, ?_, ?_⟩
  · intro h hh
    cases frames with
    | nil => simp [Commands._start] at hh
    | cons f rest =>
        by_cases hf : f.has_event <;> simp [Commands._start, hf] at hh
        rw [← hh]
  · intro h hh
    cases frames with
    | nil => simp [Commands._start] at hh
    | cons f rest =>
        by_cases hf : f.has_event <;> simp [Commands._start, hf] at hh
        rw [← hh]
  · cases frames with
    | nil => rfl
    | cons f rest =>
        by_cases hf : f.has_event <;>
          simp [Commands.run_start, Commands._start, handlePid, hf]

/-- Witness for C10_background_appends_ampersand on a concrete start stream. -/
theorem C10_background_appends_ampersand_witness :
    Commands._start ("sleep 30" ++ " &") [] none [⟨true, 42⟩] =
      Except.ok ⟨42, ⟨"/bin/bash", ["-l", "-c", "sleep 30 &"], [], none⟩⟩ ∧
    (⟨42, ⟨"/bin/bash", ["-l", "-c", "sleep 30 &"], [], none⟩⟩ : CommandHandleM).config =
      ⟨"/bin/bash", ["-l", "-c", "sleep 30" ++ " &"], [], none⟩ :=
  ⟨rfl,
   (C10_background_appends_ampersand "sleep 30" [] none [⟨true, 42⟩]).2.2.2.1
     ⟨42, ⟨"/bin/bash", ["-l", "-c", "sleep 30 &"], [], none⟩⟩ rfl⟩

end ScaleboxSDK
